import Mathlib

/-!
Verification of the `overcooked_vac` model module
(`dizoo/overcooked/models/overcooked_vac.py`).

The module defines two classes:

* `ConvEncoder` — a small convolutional encoder.  Its constructor builds a
  layer list `main` (three `Conv2d(k=1, s=1)` layers each followed by the
  activation, a residual-block loop, a `Flatten`), computes the flatten size
  by a dummy forward pass, and creates a final `Linear` layer `mid`.
* `VAC` — an actor-critic model.  Its constructor squeezes the observation
  and action shapes, selects the encoder class from the observation rank,
  builds one shared or two separate encoders, and builds the critic head
  (a `RegressionHead` with output size 1) and the actor head
  (`ReparameterizationHead` when continuous, otherwise `DiscreteHead`, or
  `MultiHead` over `DiscreteHead` for tuple action shapes).  `forward`
  dispatches on a mode string; the three modes run encoder(s) then head(s).

We embed the module at two complementary levels, both translated from the
source:

1. a *construction / shape* level (`ConvEncoder`, `VACArch`, `VAC.init`,
   shape-propagation functions) capturing what `__init__` builds and how
   tensor shapes flow through a forward pass;
2. a *value* level (`VAC` structure with abstract tensor type `T`),
   capturing the data flow of `forward` / `compute_actor` /
   `compute_critic` / `compute_actor_critic`, with the external
   `ding` heads abstracted as pure functions (per the spec the module is a
   pure function of its parameters).

Layer classes (`Conv2d`, `Linear`, `Flatten`), the `ding` heads and
`FCEncoder` live outside this fragment; where their behaviour decides a
property we model their shape semantics from the spec (marked
`Modelled from the spec:`).  Python failures (`IndexError`, `assert`,
shape errors) are modelled with `Except String`.
-/

/-- A tensor shape: the list of its dimensions, e.g. `[B, C, H, W]`. -/
abbrev Shape := List Nat

/-- A Python value that is either an `int` or a sequence of ints
(the forms `obs_shape` / `action_shape` take in `VAC.__init__`). -/
inductive PyVal where
  | int (n : Nat)
  | seq (l : List Nat)
deriving DecidableEq, Repr

/-- Modelled from the spec: `ding.utils.squeeze` (not under `src/`) —
a one-element sequence shape is squeezed to the int it contains, every
other value is returned unchanged (spec: "an integer or rank-1 shape
yields the fully-connected encoder", i.e. squeezing identifies them). -/
def squeeze : PyVal → PyVal
  | .int n => .int n
  | .seq [n] => .int n
  | .seq l => .seq l

/-- Python list indexing `l[i]` for a nonnegative index: raises
`IndexError` when out of range. -/
def pyIndex (l : List Nat) (i : Nat) : Except String Nat :=
  match l.get? i with
  | some v => Except.ok v
  | none => Except.error "IndexError: list index out of range"

/-- Python list indexing `l[-1]`: the last element, `IndexError` on `[]`. -/
def pyLast (l : List Nat) : Except String Nat :=
  match l.getLast? with
  | some v => Except.ok v
  | none => Except.error "IndexError: list index out of range"

/-- Python slice `l[3:-1]`: elements from index 3 up to (excluding) the
last one. -/
def pySlice3ToLast (l : List Nat) : List Nat := (l.drop 3).dropLast

/-- The condition `len(set(l)) <= 1`: the list has at most one distinct
element. -/
def allSame (l : List Nat) : Bool :=
  match l with
  | [] => true
  | x :: xs => xs.all (fun y => y == x)

/-- One entry of the layer list built by `ConvEncoder.__init__`:
`nn.Conv2d(in, out, kernel, stride)`, the activation module, a
`ding` `ResBlock(width)`, or `nn.Flatten()`. -/
inductive ConvLayer where
  | conv (inCh outCh kernel stride : Nat)
  | act
  | resblock (width : Nat)
  | flatten
deriving DecidableEq, Repr

/-- Whether a layer is a residual block. -/
def ConvLayer.isResblock : ConvLayer → Bool
  | .resblock _ => true
  | _ => false

/-- Shape semantics of a single layer on a batched input.
`Conv2d(in, out, k, s)` needs a `[B, in, H, W]` input with `H, W ≥ k` and
produces `[B, out, (H-k)/s+1, (W-k)/s+1]`; the activation is shape
preserving; `ResBlock(w)` needs (and keeps) a `[B, w, H, W]` input;
`Flatten()` (torch default `start_dim = 1`) needs rank ≥ 2 and multiplies
all non-batch dimensions together.  `none` models a framework shape
error. -/
def ConvLayer.outShape : ConvLayer → Shape → Option Shape
  | .conv inCh outCh k s, [b, c, h, w] =>
      if c = inCh ∧ k ≤ h ∧ k ≤ w ∧ 0 < s then
        some [b, outCh, (h - k) / s + 1, (w - k) / s + 1]
      else none
  | .conv _ _ _ _, _ => none
  | .act, s => some s
  | .resblock wd, [b, c, h, w] => if c = wd then some [b, c, h, w] else none
  | .resblock _, _ => none
  | .flatten, b :: rest => if rest.isEmpty then none else some [b, rest.prod]
  | .flatten, [] => none

/-- Shape semantics of `nn.Sequential(*layers)`. -/
def seqOutShape : List ConvLayer → Shape → Option Shape
  | [], s => some s
  | l :: ls, s => (l.outShape s).bind (seqOutShape ls)

/-- The conv loop of `ConvEncoder.__init__`:
`for i in range(len(kernel_size)): layers.append(Conv2d(input_size,
hidden_size_list[i], kernel_size[i], stride[i])); layers.append(act);
input_size = hidden_size_list[i]`.  Indexing the caller-supplied
`hidden_size_list` can raise `IndexError`. -/
def convLoop (hsl : List Nat) : Nat → Nat → List (Nat × Nat) →
    Except String (List ConvLayer)
  | _, _, [] => Except.ok []
  | input_size, i, (k, s) :: rest => do
      let h ← pyIndex hsl i
      let tail ← convLoop hsl h (i + 1) rest
      Except.ok (ConvLayer.conv input_size h k s :: ConvLayer.act :: tail)

/-- The residual-block loop of `ConvEncoder.__init__`:
`for i in range(3, len(self.hidden_size_list) - 1):
layers.append(ResBlock(self.hidden_size_list[i], ...))`.
Note it ranges over `self.hidden_size_list`, not the constructor
argument. -/
def resLoop (self_hsl : List Nat) : List ConvLayer :=
  ((List.range (self_hsl.length - 1)).drop 3).map
    (fun i => ConvLayer.resblock (self_hsl.getD i 0))

/-- `ConvEncoder._get_flatten_size`: run `self.main` on a dummy tensor of
shape `(1, *obs_shape)` and read `output.shape[1]`. -/
def getFlattenSize (main : List ConvLayer) (obs_shape : List Nat) :
    Option Nat :=
  (seqOutShape main (1 :: obs_shape)).bind (fun s => s.get? 1)

/-- The state a successfully constructed `ConvEncoder` holds: the stored
`obs_shape`, the `self.hidden_size_list` field (after the constructor's
overwrite), the layer list `self.main`, and the `(in_features,
out_features)` of the `self.mid` linear layer. -/
structure ConvEncoder where
  obs_shape : List Nat
  hidden_size_list : List Nat
  main : List ConvLayer
  mid : Nat × Nat
deriving DecidableEq, Repr

/-- `ConvEncoder.__init__(obs_shape, hidden_size_list, ...)`, translated
statement by statement:
`self.hidden_size_list = hidden_size_list` then immediately
`self.hidden_size_list = [4, 4, 4]`; the conv loop over
`kernel_size = [1, 1, 1]`, `stride = [1, 1, 1]` with widths read from the
caller's `hidden_size_list`; the assert
`len(set(hidden_size_list[3:-1])) <= 1`; the residual loop over
`self.hidden_size_list`; `Flatten`; the dummy forward computing
`flatten_size`; and `self.mid = nn.Linear(flatten_size,
hidden_size_list[-1])`. -/
def ConvEncoder.init (obs_shape : List Nat) (hidden_size_list : List Nat) :
    Except String ConvEncoder := do
  let self_hsl : List Nat := [4, 4, 4]
  let c0 ← pyIndex obs_shape 0
  let convPart ← convLoop hidden_size_list c0 0 [(1, 1), (1, 1), (1, 1)]
  if allSame (pySlice3ToLast hidden_size_list) then
    let main := convPart ++ resLoop self_hsl ++ [ConvLayer.flatten]
    match getFlattenSize main obs_shape with
    | some flatten_size => do
        let out ← pyLast hidden_size_list
        Except.ok
          { obs_shape := obs_shape, hidden_size_list := self_hsl,
            main := main, mid := (flatten_size, out) }
    | none => Except.error "RuntimeError: shape error in dummy forward"
  else
    Except.error "Please indicate the same hidden size for res block parts"

/-- Shape semantics of `nn.Linear(inF, outF)`: acts on the last
dimension, which must equal `inF`. -/
def linearShape (inF outF : Nat) (s : Shape) : Option Shape :=
  match s.getLast? with
  | some n => if n = inF then some (s.dropLast ++ [outF]) else none
  | none => none

/-- Shape semantics of `ConvEncoder.forward`: `x = self.main(x)` then
`x = self.mid(x)` (the `.float()` cast does not change the shape). -/
def ConvEncoder.forwardShape (e : ConvEncoder) (s : Shape) : Option Shape :=
  (seqOutShape e.main s).bind (linearShape e.mid.1 e.mid.2)

/-- A Python value appearing in a forward result: a tensor or a list of
such values (`compute_actor` returns a two-element list under key
`logit` in the continuous case).  `T` is the abstract tensor type. -/
inductive Val (T : Type) where
  | tensor (t : T)
  | list (l : List (Val T))

/-- A Python dict with string keys, as returned by heads and by the
`compute_*` methods. -/
abbrev PyDict (T : Type) := List (String × Val T)

/-- Python `d[k]`: the value stored under `k`, `none` on `KeyError`. -/
def dlookup {T : Type} (d : PyDict T) (k : String) : Option (Val T) :=
  (d.find? (fun p => p.1 == k)).map (fun p => p.2)

/-- The runtime view of a constructed `VAC` instance: the attribute
flags `share_encoder` and `continuous` that `compute_*` branch on, and
the sub-module forward functions.  The encoders and the `ding` heads are
abstracted as pure functions of their input (per the spec the module has
no sequential state: learned parameters are fixed inside each function).
When `share_encoder` is true only `encoder` is used; otherwise
`actor_encoder` and `critic_encoder` are. The heads return dicts:
`actor_head` yields key `logit` (discrete) or keys `mu` and `sigma`
(continuous), `critic_head` yields key `pred`. -/
structure VAC (T : Type) where
  share_encoder : Bool
  continuous : Bool
  encoder : T → T
  actor_encoder : T → T
  critic_encoder : T → T
  actor_head : T → PyDict T
  critic_head : T → PyDict T

/-- `VAC.compute_actor`: run the shared or actor-side encoder, then the
actor head; when `continuous`, repackage as
`x = dict(logit = [x[mu], x[sigma]])` (a `KeyError` is `none`);
otherwise return the head output dict unchanged. -/
def VAC.compute_actor {T : Type} (m : VAC T) (x : T) : Option (PyDict T) :=
  let emb := if m.share_encoder then m.encoder x else m.actor_encoder x
  let out := m.actor_head emb
  if m.continuous then
    match dlookup out "mu", dlookup out "sigma" with
    | some mu, some sigma => some [("logit", Val.list [mu, sigma])]
    | _, _ => none
  else
    some out

/-- `VAC.compute_critic`: run the shared or critic-side encoder, then the
critic head, and return `dict(value = x[pred])`. -/
def VAC.compute_critic {T : Type} (m : VAC T) (x : T) : Option (PyDict T) :=
  let emb := if m.share_encoder then m.encoder x else m.critic_encoder x
  let out := m.critic_head emb
  (dlookup out "pred").map (fun v => [("value", v)])

/-- `VAC.compute_actor_critic`: when the encoder is shared, evaluate it
once (`actor_embedding = critic_embedding = self.encoder(x)`), otherwise
run the two separate encoders; then
`value = self.critic_head(critic_embedding)`,
`actor_output = self.actor_head(actor_embedding)`, the continuous
repackaging of `logit`, and the combined
`dict(logit = logit, value = value[pred])`. -/
def VAC.compute_actor_critic {T : Type} (m : VAC T) (x : T) :
    Option (PyDict T) :=
  let embs :=
    if m.share_encoder then
      let e := m.encoder x
      (e, e)
    else
      (m.actor_encoder x, m.critic_encoder x)
  let value := m.critic_head embs.2
  let actor_output := m.actor_head embs.1
  let logit :=
    if m.continuous then
      match dlookup actor_output "mu", dlookup actor_output "sigma" with
      | some mu, some sigma => some (Val.list [mu, sigma])
      | _, _ => none
    else
      dlookup actor_output "logit"
  match logit, dlookup value "pred" with
  | some l, some p => some [("logit", l), ("value", p)]
  | _, _ => none

/-- The class attribute
`mode = [compute_actor, compute_critic, compute_actor_critic]`. -/
def VAC.modeNames : List String :=
  ["compute_actor", "compute_critic", "compute_actor_critic"]

/-- The message of the failed assert in `VAC.forward`:
`"not support forward mode: " + mode + "/" + self.mode`. -/
def unsupportedModeMsg (mode : String) : String :=
  "not support forward mode: " ++ mode ++ "/[" ++
    String.intercalate ", " VAC.modeNames ++ "]"

/-- `VAC.forward(inputs, mode)`: assert `mode in self.mode` (an
`AssertionError` with the offending mode and the allowed list otherwise),
then `getattr(self, mode)(inputs)` — dispatch to the method whose name
is `mode`. -/
def VAC.forward {T : Type} (m : VAC T) (x : T) (mode : String) :
    Except String (Option (PyDict T)) :=
  if mode ∈ VAC.modeNames then
    Except.ok
      (if mode = "compute_actor" then m.compute_actor x
       else if mode = "compute_critic" then m.compute_critic x
       else m.compute_actor_critic x)
  else
    Except.error (unsupportedModeMsg mode)

/-- A stateful call to `VAC.forward`: the instance after the call,
paired with the returned value.  None of `forward`, `compute_actor`,
`compute_critic`, `compute_actor_critic` assigns any attribute of
`self`, so the instance after the call is the instance before it. -/
def VAC.call {T : Type} (m : VAC T) (x : T) (mode : String) :
    VAC T × Except String (Option (PyDict T)) :=
  (m, m.forward x mode)

/-- Two sequential calls of the same mode on the same input: thread the
instance state through both calls and return the final state and the two
results. -/
def VAC.callTwice {T : Type} (m : VAC T) (x : T) (mode : String) :
    VAC T × Except String (Option (PyDict T)) ×
      Except String (Option (PyDict T)) :=
  let first := m.call x mode
  let second := first.1.call x mode
  (second.1, first.2, second.2)

/-- The encoder class chosen by `VAC.__init__` from the observation
rank: `FCEncoder` or the local `ConvEncoder`. -/
inductive EncoderCls where
  | fc
  | conv
deriving DecidableEq, Repr

/-- A constructed encoder instance.  `fc` is modelled from the spec:
`FCEncoder` (`ding.model.common`, not under `src/`) is the
"flatten/fully-connected path for low-dimensional observations": it
takes a flat observation of width `obs` and produces an embedding of the
last configured hidden size.  `conv` wraps the `ConvEncoder` translated
above from the source. -/
inductive EncoderI where
  | fc (obs : Nat) (hidden_size_list : List Nat)
  | conv (e : ConvEncoder)
deriving DecidableEq, Repr

/-- Modelled from the spec: shape semantics of `FCEncoder.forward`
(`ding.model.common`, not under `src/`): it maps a batch `[B, obs]` of
flat observations to a batch `[B, h]` of embeddings where `h` is the
last configured hidden size ("maps a raw observation tensor to a
fixed-size embedding"). -/
def fcEncoderOutShape (obs : Nat) (hsl : List Nat) : Shape → Option Shape
  | [b, n] => if n = obs then hsl.getLast?.map (fun h => [b, h]) else none
  | _ => none

/-- Shape semantics of an encoder forward: the spec-modelled
`FCEncoder` or the source-level `ConvEncoder`. -/
def EncoderI.outShape : EncoderI → Shape → Option Shape
  | .fc obs hsl, s => fcEncoderOutShape obs hsl s
  | .conv e, s => e.forwardShape s

/-- The actor head constructed by `VAC.__init__`: a
`ReparameterizationHead` when `continuous`, otherwise a `DiscreteHead`
for an int action shape or a `MultiHead` over `DiscreteHead` for a
sequence action shape.  Each constructor records the head input width
(`actor_head_hidden_size`), the action shape it was given and the layer
count. -/
inductive ActorHeadI where
  | reparam (hidden : Nat) (action : PyVal) (layer_num : Nat)
  | discrete (hidden : Nat) (action : Nat) (layer_num : Nat)
  | multi (hidden : Nat) (actions : List Nat) (layer_num : Nat)
deriving DecidableEq, Repr

/-- The shape of the action-parameter output of `compute_actor`: a
single logit tensor (`DiscreteHead`), one logit tensor per action
sub-dimension (`MultiHead`), or the `[mu, sigma]` pair
(`ReparameterizationHead`, repackaged by `compute_actor`). -/
inductive LogitShape where
  | single (s : Shape)
  | multi (ss : List Shape)
  | pair (mu sigma : Shape)
deriving DecidableEq, Repr

/-- Modelled from the spec: shape semantics of `DiscreteHead`
(`ding.model.common`, not under `src/`).  Each head is an MLP over the
embedding: it needs a `[B, hidden]` input; `DiscreteHead` outputs
categorical logits `[B, action]` ("action-parameter tensor last
dimension equals the configured action-space size"). -/
def discreteLogitShape (hidden action : Nat) : Shape → Option LogitShape
  | [b, n] => if n = hidden then some (.single [b, action]) else none
  | _ => none

/-- Modelled from the spec: shape semantics of `MultiHead` over
`DiscreteHead` — one logit tensor per action sub-dimension. -/
def multiLogitShape (hidden : Nat) (actions : List Nat) :
    Shape → Option LogitShape
  | [b, n] =>
      if n = hidden then some (.multi (actions.map (fun a => [b, a])))
      else none
  | _ => none

/-- Modelled from the spec: shape semantics of
`ReparameterizationHead` — a `(mean, std)` pair, each `[B, action]`
(meaningful only for an int action shape). -/
def reparamLogitShape (hidden : Nat) (action : PyVal) :
    Shape → Option LogitShape
  | [b, n] =>
      match action with
      | .int an => if n = hidden then some (.pair [b, an] [b, an]) else none
      | .seq _ => none
  | _ => none

/-- Shape semantics of the actor head, dispatching to the head kind
built at construction. -/
def ActorHeadI.logitShape : ActorHeadI → Shape → Option LogitShape
  | .discrete hidden action _, emb => discreteLogitShape hidden action emb
  | .multi hidden actions _, emb => multiLogitShape hidden actions emb
  | .reparam hidden action _, emb => reparamLogitShape hidden action emb

/-- Modelled from the spec: shape semantics of the key `pred` of
`RegressionHead(hidden, 1, layer_num)` (`ding.model.common`, not under
`src/`): "a single-output regression head" producing a "scalar value
estimate ... scalar per batch element", i.e. from a `[B, hidden]`
embedding a 1-D tensor `[B]`. -/
def regressionPredShape (hidden : Nat) : Shape → Option Shape
  | [b, n] => if n = hidden then some [b] else none
  | _ => none

/-- The constructor arguments of `VAC.__init__` that the claims are
about (`activation` and `norm_type` do not affect shapes or control
flow and are omitted). -/
structure VACConfig where
  obs_shape : PyVal
  action_shape : PyVal
  share_encoder : Bool
  continuous : Bool
  encoder_hidden_size_list : List Nat
  actor_head_hidden_size : Nat
  actor_head_layer_num : Nat
  critic_head_hidden_size : Nat
  critic_head_layer_num : Nat
deriving DecidableEq, Repr

/-- The default constructor arguments of `VAC.__init__` for a given
`obs_shape` and `action_shape`: `share_encoder = True`,
`continuous = False`, `encoder_hidden_size_list = [128, 128, 64]`,
`actor_head_hidden_size = 64`, `actor_head_layer_num = 2`,
`critic_head_hidden_size = 64`, `critic_head_layer_num = 1`. -/
def VACConfig.default (obs_shape action_shape : PyVal) : VACConfig :=
  { obs_shape := obs_shape, action_shape := action_shape,
    share_encoder := true, continuous := false,
    encoder_hidden_size_list := [128, 128, 64],
    actor_head_hidden_size := 64, actor_head_layer_num := 2,
    critic_head_hidden_size := 64, critic_head_layer_num := 1 }

/-- The state a successfully constructed `VAC` instance holds:
the squeezed shapes, the chosen encoder class, the flags, the encoder
instance(s) (`encoder` when shared, `actor_encoder` / `critic_encoder`
otherwise), the actor head and the critic head (its input width and
layer count; its output size is the constant 1). -/
structure VACArch where
  obs_shape : PyVal
  action_shape : PyVal
  encoder_cls : EncoderCls
  share_encoder : Bool
  continuous : Bool
  multi_head : Bool
  encoder : Option EncoderI
  actor_encoder : Option EncoderI
  critic_encoder : Option EncoderI
  actor_head : ActorHeadI
  critic_head : Nat × Nat
deriving DecidableEq, Repr

/-- The `RuntimeError` message of `VAC.__init__` for an unsupported
observation shape ("not support obs_shape for pre-defined encoder: ...,
please customize your own DQN"). -/
def unsupportedObsMsg (obs : List Nat) : String :=
  "not support obs_shape for pre-defined encoder: " ++ toString obs ++
    ", please customize your own DQN"

/-- Build one encoder instance, as the `encoder_cls(obs_shape,
encoder_hidden_size_list, ...)` call sites do.  `ConvEncoder`
construction can fail (assert / index / shape errors); `FCEncoder` is
modelled from the spec and always succeeds.  The fc case with a
sequence observation shape is unreachable after `squeeze` (a length-1
sequence was squeezed to an int). -/
def buildEncoder (cls : EncoderCls) (obs : PyVal) (hsl : List Nat) :
    Except String EncoderI :=
  match cls, obs with
  | .fc, .int n => Except.ok (.fc n hsl)
  | .fc, .seq l => Except.ok (.fc (l.headD 0) hsl)
  | .conv, .seq l => (ConvEncoder.init l hsl).map .conv
  | .conv, .int _ => Except.error "unreachable: conv encoder with int obs"

/-- The encoder-class selection at the top of `VAC.__init__`:
`int` or length 1 → `FCEncoder`, length 3 → `ConvEncoder`, otherwise
`raise RuntimeError(...)` (no encoder or head has been built yet at that
point).  After `squeeze` the length-1 branch is unreachable but is kept
as in the source. -/
def selectEncoderCls (obs : PyVal) : Except String EncoderCls :=
  match obs with
  | .int _ => Except.ok EncoderCls.fc
  | .seq l =>
      if l.length = 1 then Except.ok EncoderCls.fc
      else if l.length = 3 then Except.ok EncoderCls.conv
      else Except.error (unsupportedObsMsg l)

/-- The encoder construction of `VAC.__init__`: one shared encoder when
`share_encoder`, otherwise separate `actor_encoder` and
`critic_encoder` built by two identical calls.  Returns the triple
`(self.encoder, self.actor_encoder, self.critic_encoder)`. -/
def buildEncoders (cfg : VACConfig) (cls : EncoderCls) (obs : PyVal) :
    Except String (Option EncoderI × Option EncoderI × Option EncoderI) :=
  if cfg.share_encoder then do
    let e ← buildEncoder cls obs cfg.encoder_hidden_size_list
    Except.ok (some e, none, none)
  else do
    let ea ← buildEncoder cls obs cfg.encoder_hidden_size_list
    let ec ← buildEncoder cls obs cfg.encoder_hidden_size_list
    Except.ok (none, some ea, some ec)

/-- The actor-head construction of `VAC.__init__`:
`ReparameterizationHead(actor_head_hidden_size, action_shape,
actor_head_layer_num, sigma_type=independent)` when `continuous`;
otherwise `DiscreteHead(...)` for an int action shape or
`MultiHead(DiscreteHead, ...)` for a sequence action shape. -/
def buildActorHead (cfg : VACConfig) (act : PyVal) : ActorHeadI :=
  if cfg.continuous then
    ActorHeadI.reparam cfg.actor_head_hidden_size act
      cfg.actor_head_layer_num
  else
    match act with
    | .int n =>
        ActorHeadI.discrete cfg.actor_head_hidden_size n
          cfg.actor_head_layer_num
    | .seq l =>
        ActorHeadI.multi cfg.actor_head_hidden_size l
          cfg.actor_head_layer_num

/-- The `self.multi_head` flag of `VAC.__init__`: `False` when
`continuous`, otherwise `not isinstance(action_shape, int)`. -/
def multiHeadFlag (cfg : VACConfig) (act : PyVal) : Bool :=
  if cfg.continuous then false
  else
    match act with
    | .int _ => false
    | .seq _ => true

/-- `VAC.__init__`, translated statement by statement: squeeze both
shapes; choose the encoder class from the squeezed observation shape
(failing with `RuntimeError` before any encoder or head is built);
build one shared encoder or separate actor/critic encoders; build the
`RegressionHead(critic_head_hidden_size, 1, critic_head_layer_num)`;
set `continuous` and build the actor head. -/
def VAC.init (cfg : VACConfig) : Except String VACArch := do
  let obs := squeeze cfg.obs_shape
  let act := squeeze cfg.action_shape
  let cls ← selectEncoderCls obs
  let encs ← buildEncoders cfg cls obs
  Except.ok
    { obs_shape := obs, action_shape := act, encoder_cls := cls,
      share_encoder := cfg.share_encoder, continuous := cfg.continuous,
      multi_head := multiHeadFlag cfg act,
      encoder := encs.1, actor_encoder := encs.2.1,
      critic_encoder := encs.2.2,
      actor_head := buildActorHead cfg act,
      critic_head := (cfg.critic_head_hidden_size,
        cfg.critic_head_layer_num) }

/-- The encoder the actor path uses: `self.encoder` when shared,
`self.actor_encoder` otherwise. -/
def VACArch.actorEnc (a : VACArch) : Option EncoderI :=
  if a.share_encoder then a.encoder else a.actor_encoder

/-- The encoder the critic path uses: `self.encoder` when shared,
`self.critic_encoder` otherwise. -/
def VACArch.criticEnc (a : VACArch) : Option EncoderI :=
  if a.share_encoder then a.encoder else a.critic_encoder

/-- Shape semantics of `compute_actor`: encoder, then actor head (the
continuous repackaging into `[mu, sigma]` keeps both tensors, already
reflected in `LogitShape.pair`). -/
def VACArch.computeActorShape (a : VACArch) (s : Shape) :
    Option LogitShape := do
  let enc ← a.actorEnc
  let emb ← enc.outShape s
  a.actor_head.logitShape emb

/-- Shape semantics of the `value` output of `compute_critic`: encoder,
then the `pred` of the regression head. -/
def VACArch.computeCriticShape (a : VACArch) (s : Shape) : Option Shape := do
  let enc ← a.criticEnc
  let emb ← enc.outShape s
  regressionPredShape a.critic_head.1 emb

/-- Shape semantics of `compute_actor_critic`: the `logit` and `value`
entries of the returned dict. -/
def VACArch.computeActorCriticShape (a : VACArch) (s : Shape) :
    Option (LogitShape × Shape) := do
  let l ← a.computeActorShape s
  let v ← a.computeCriticShape s
  some (l, v)

/-- Each shape inside a `LogitShape`, with its last dimension. -/
def LogitShape.lastDims : LogitShape → List (Option Nat)
  | .single s => [s.getLast?]
  | .multi ss => ss.map (fun s => s.getLast?)
  | .pair mu sigma => [mu.getLast?, sigma.getLast?]

/-- The claim "the action-parameter tensor has last dimension equal to
the configured action-space size", per configured action shape: a single
logit (or each of mean and std) ends in the int action size; the
multi-head logits end, position by position, in the action
sub-dimension sizes. -/
def lastDimsMatch (action : PyVal) (ls : LogitShape) : Bool :=
  match action, ls with
  | .int n, .single s => s.getLast? == some n
  | .int n, .pair mu sigma =>
      mu.getLast? == some n && sigma.getLast? == some n
  | .seq l, .multi ss =>
      ss.map (fun s => s.getLast?) == l.map some
  | _, _ => false

/-- Unfolding `>>=` on an `Except.ok` value. -/
theorem exceptBindOk {ε α β : Type} (a : α) (f : α → Except ε β) :
    (Except.ok a : Except ε α) >>= f = f a := rfl

/-- Unfolding `>>=` on an `Except.error` value. -/
theorem exceptBindError {ε α β : Type} (e : ε) (f : α → Except ε β) :
    (Except.error e : Except ε α) >>= f = Except.error e := rfl

/-- Characterization of `ConvEncoder.init`: the do-chain written out as
one nested match on the four list accesses, the assert, the dummy
forward and `hidden_size_list[-1]`.  The residual loop over the
overwritten `self.hidden_size_list = [4, 4, 4]` contributes no layer
(`resLoop [4, 4, 4] = []`). -/
theorem convEncoder_init_eq (obs hsl : List Nat) :
    ConvEncoder.init obs hsl =
      match obs[0]?, hsl[0]?, hsl[1]?, hsl[2]? with
      | some c0, some h0, some h1, some h2 =>
          if allSame (pySlice3ToLast hsl) then
            match getFlattenSize
                [ConvLayer.conv c0 h0 1 1, ConvLayer.act,
                 ConvLayer.conv h0 h1 1 1, ConvLayer.act,
                 ConvLayer.conv h1 h2 1 1, ConvLayer.act,
                 ConvLayer.flatten] obs with
            | some fs =>
                match hsl.getLast? with
                | some out =>
                    Except.ok
                      { obs_shape := obs, hidden_size_list := [4, 4, 4],
                        main :=
                          [ConvLayer.conv c0 h0 1 1, ConvLayer.act,
                           ConvLayer.conv h0 h1 1 1, ConvLayer.act,
                           ConvLayer.conv h1 h2 1 1, ConvLayer.act,
                           ConvLayer.flatten],
                        mid := (fs, out) }
                | none => Except.error "IndexError: list index out of range"
            | none =>
                Except.error "RuntimeError: shape error in dummy forward"
          else
            Except.error
              "Please indicate the same hidden size for res block parts"
      | _, _, _, _ => Except.error "IndexError: list index out of range" := by
  have hres : resLoop [4, 4, 4] = [] := rfl
  cases e0 : obs[0]? with
  | none => simp [ConvEncoder.init, pyIndex, e0, exceptBindOk, exceptBindError]
  | some c0 =>
    cases e1 : hsl[0]? with
    | none => simp [ConvEncoder.init, convLoop, pyIndex, e0, e1,
        exceptBindOk, exceptBindError]
    | some h0 =>
      cases e2 : hsl[1]? with
      | none => simp [ConvEncoder.init, convLoop, pyIndex, e0, e1, e2,
          exceptBindOk, exceptBindError]
      | some h1 =>
        cases e3 : hsl[2]? with
        | none => simp [ConvEncoder.init, convLoop, pyIndex, e0, e1, e2, e3,
            exceptBindOk, exceptBindError]
        | some h2 =>
          simp only [ConvEncoder.init, convLoop, pyIndex, pyLast,
            List.get?_eq_getElem?, e0, e1, e2, e3, hres,
            exceptBindOk, exceptBindError,
            List.append_nil, List.nil_append, List.cons_append]
          by_cases hall : allSame (pySlice3ToLast hsl)
          · simp only [hall, if_true]
            cases efs : getFlattenSize
                [ConvLayer.conv c0 h0 1 1, ConvLayer.act,
                 ConvLayer.conv h0 h1 1 1, ConvLayer.act,
                 ConvLayer.conv h1 h2 1 1, ConvLayer.act,
                 ConvLayer.flatten] obs with
            | none => simp [efs]
            | some fs =>
                simp only [efs]
                cases el : hsl.getLast? with
                | none => simp [el, exceptBindOk, exceptBindError]
                | some out => simp [el, exceptBindOk, exceptBindError]
          · simp [hall]

/-- Structure of every successfully constructed `ConvEncoder`: the four
list reads succeed, the assert condition holds, `self.hidden_size_list`
is the overwritten `[4, 4, 4]`, `self.main` is exactly three `Conv2d`
layers with kernel size 1 and stride 1 each followed by the activation
and then a `Flatten` (no residual block), and `self.mid` is the linear
layer from the dummy-forward flatten size to the last caller-configured
hidden size. -/
theorem convEncoder_init_ok_struct (obs hsl : List Nat) (e : ConvEncoder)
    (h : ConvEncoder.init obs hsl = Except.ok e) :
    ∃ c0 h0 h1 h2 fs out,
      obs[0]? = some c0 ∧ hsl[0]? = some h0 ∧ hsl[1]? = some h1 ∧
      hsl[2]? = some h2 ∧ allSame (pySlice3ToLast hsl) = true ∧
      hsl.getLast? = some out ∧
      e.obs_shape = obs ∧ e.hidden_size_list = [4, 4, 4] ∧
      e.main =
        [ConvLayer.conv c0 h0 1 1, ConvLayer.act,
         ConvLayer.conv h0 h1 1 1, ConvLayer.act,
         ConvLayer.conv h1 h2 1 1, ConvLayer.act,
         ConvLayer.flatten] ∧
      e.mid = (fs, out) ∧
      getFlattenSize e.main obs = some fs := by
  rw [convEncoder_init_eq] at h
  split at h
  · rename_i c0 h0 h1 h2 heq0 heq1 heq2 heq3
    split at h
    · rename_i hall
      split at h
      · rename_i fs efs
        split at h
        · rename_i out el
          injection h with hh
          subst hh
          exact ⟨c0, h0, h1, h2, fs, out, heq0, heq1, heq2, heq3, hall,
            el, rfl, rfl, rfl, rfl, efs⟩
        · simp at h
      · simp at h
    · simp at h
  · simp at h

/-- Structure of every successfully constructed `VAC`: all stored fields
are determined by the config and the squeezed shapes, except the encoder
class and the encoder instances, which come from the two fallible
stages. -/
theorem vac_init_ok_struct (cfg : VACConfig) (arch : VACArch)
    (h : VAC.init cfg = Except.ok arch) :
    ∃ cls encs,
      selectEncoderCls (squeeze cfg.obs_shape) = Except.ok cls ∧
      buildEncoders cfg cls (squeeze cfg.obs_shape) = Except.ok encs ∧
      arch =
        { obs_shape := squeeze cfg.obs_shape,
          action_shape := squeeze cfg.action_shape,
          encoder_cls := cls,
          share_encoder := cfg.share_encoder,
          continuous := cfg.continuous,
          multi_head := multiHeadFlag cfg (squeeze cfg.action_shape),
          encoder := encs.1, actor_encoder := encs.2.1,
          critic_encoder := encs.2.2,
          actor_head := buildActorHead cfg (squeeze cfg.action_shape),
          critic_head := (cfg.critic_head_hidden_size,
            cfg.critic_head_layer_num) } := by
  simp only [VAC.init] at h
  cases hc : selectEncoderCls (squeeze cfg.obs_shape) with
  | error e => rw [hc, exceptBindError] at h; exact absurd h (by simp)
  | ok cls =>
    rw [hc, exceptBindOk] at h
    cases he : buildEncoders cfg cls (squeeze cfg.obs_shape) with
    | error e => rw [he, exceptBindError] at h; exact absurd h (by simp)
    | ok encs =>
      rw [he, exceptBindOk] at h
      injection h with hh
      refine ⟨cls, encs, ?_, ?_, hh.symm⟩
      · first | exact hc | exact rfl
      · first | exact he | exact rfl

/-- An unsupported squeezed observation rank (neither an int, nor length
1, nor length 3) makes `VAC.__init__` raise the `RuntimeError` at the
selection stage, before any encoder or head is built: the result is the
error value, for every choice of the remaining constructor arguments. -/
theorem vac_init_bad_rank (cfg : VACConfig) (l : List Nat)
    (hobs : squeeze cfg.obs_shape = PyVal.seq l)
    (h1 : l.length ≠ 1) (h3 : l.length ≠ 3) :
    VAC.init cfg = Except.error (unsupportedObsMsg l) := by
  simp only [VAC.init, hobs, selectEncoderCls]
  simp [h1, h3, exceptBindError]

/-- An int squeezed observation shape selects `FCEncoder` and the
construction succeeds. -/
theorem vac_init_int_obs_fc (cfg : VACConfig) (n : Nat)
    (hobs : squeeze cfg.obs_shape = PyVal.int n) :
    ∃ arch, VAC.init cfg = Except.ok arch ∧
      arch.encoder_cls = EncoderCls.fc := by
  simp only [VAC.init, hobs, selectEncoderCls, buildEncoders, buildEncoder,
    exceptBindOk]
  cases hs : cfg.share_encoder with
  | true => simp only [if_true, exceptBindOk]; exact ⟨_, rfl, rfl⟩
  | false =>
      simp only [Bool.false_eq_true, if_false, exceptBindOk]
      exact ⟨_, rfl, rfl⟩

/-- A concrete `ConvEncoder` instance:
`ConvEncoder((4, 5, 5), [32, 64, 64, 128])`. -/
def sampleConvEncoder : ConvEncoder :=
  { obs_shape := [4, 5, 5], hidden_size_list := [4, 4, 4],
    main :=
      [ConvLayer.conv 4 32 1 1, ConvLayer.act,
       ConvLayer.conv 32 64 1 1, ConvLayer.act,
       ConvLayer.conv 64 64 1 1, ConvLayer.act,
       ConvLayer.flatten],
    mid := (1600, 128) }

/-- C10: for every `ConvEncoder` construction, regardless of the
caller-supplied `hidden_size_list`, the constructor overwrites
`self.hidden_size_list` with `[4, 4, 4]`, so the residual-block loop
range (`range(3, len(self.hidden_size_list) - 1)`) is empty and the
main stack never contains a residual block: it is always exactly three
conv+activation pairs followed by a flatten. -/
theorem c10_hidden_size_list_overwritten (obs hsl : List Nat)
    (e : ConvEncoder) (h : ConvEncoder.init obs hsl = Except.ok e) :
    e.hidden_size_list = [4, 4, 4] ∧
    resLoop e.hidden_size_list = [] ∧
    e.main.countP ConvLayer.isResblock = 0 ∧
    ∃ c0 h0 h1 h2,
      e.main =
        [ConvLayer.conv c0 h0 1 1, ConvLayer.act,
         ConvLayer.conv h0 h1 1 1, ConvLayer.act,
         ConvLayer.conv h1 h2 1 1, ConvLayer.act,
         ConvLayer.flatten] := by
  obtain ⟨c0, h0, h1, h2, fs, out, _, _, _, _, _, _, _, hh, hm, _, _⟩ :=
    convEncoder_init_ok_struct obs hsl e h
  exact ⟨hh, by rw [hh]; rfl, by rw [hm]; rfl, c0, h0, h1, h2, hm⟩

/-- Witness for C10 at `ConvEncoder((4, 5, 5), [32, 64, 64, 128])`. -/
theorem c10_hidden_size_list_overwritten_witness :
    sampleConvEncoder.hidden_size_list = [4, 4, 4] ∧
    resLoop sampleConvEncoder.hidden_size_list = [] ∧
    sampleConvEncoder.main.countP ConvLayer.isResblock = 0 ∧
    ∃ c0 h0 h1 h2,
      sampleConvEncoder.main =
        [ConvLayer.conv c0 h0 1 1, ConvLayer.act,
         ConvLayer.conv h0 h1 1 1, ConvLayer.act,
         ConvLayer.conv h1 h2 1 1, ConvLayer.act,
         ConvLayer.flatten] :=
  c10_hidden_size_list_overwritten [4, 5, 5] [32, 64, 64, 128]
    sampleConvEncoder rfl

/-- C7: for every `ConvEncoder` construction, the stack is exactly
three convolution layers with kernel size 1 and stride 1, each followed
by the activation, then a flatten; the final linear layer projects to
the last configured hidden size (`hidden_size_list[-1]`); its input
width `mid.1` is the flatten size computed at construction by the dummy
forward pass of `_get_flatten_size`, and `forward` uses exactly that
stored layer (`main` then `mid`), so the flatten size is not recomputed
per call. -/
theorem c7_conv_stack_structure (obs hsl : List Nat) (e : ConvEncoder)
    (h : ConvEncoder.init obs hsl = Except.ok e) :
    ∃ c0 h0 h1 h2,
      obs[0]? = some c0 ∧ hsl[0]? = some h0 ∧ hsl[1]? = some h1 ∧
      hsl[2]? = some h2 ∧
      e.main =
        [ConvLayer.conv c0 h0 1 1, ConvLayer.act,
         ConvLayer.conv h0 h1 1 1, ConvLayer.act,
         ConvLayer.conv h1 h2 1 1, ConvLayer.act,
         ConvLayer.flatten] ∧
      hsl.getLast? = some e.mid.2 ∧
      getFlattenSize e.main obs = some e.mid.1 ∧
      ∀ s, e.forwardShape s =
        (seqOutShape e.main s).bind (linearShape e.mid.1 e.mid.2) := by
  obtain ⟨c0, h0, h1, h2, fs, out, he0, he1, he2, he3, _, hlast, _, _, hm,
    hmid, hfs⟩ := convEncoder_init_ok_struct obs hsl e h
  refine ⟨c0, h0, h1, h2, he0, he1, he2, he3, hm, ?_, ?_, fun s => rfl⟩
  · rw [hmid]; exact hlast
  · rw [hmid]; exact hfs

/-- Witness for C7 at `ConvEncoder((4, 5, 5), [32, 64, 64, 128])`. -/
theorem c7_conv_stack_structure_witness :
    ∃ c0 h0 h1 h2,
      ([4, 5, 5] : List Nat)[0]? = some c0 ∧
      ([32, 64, 64, 128] : List Nat)[0]? = some h0 ∧
      ([32, 64, 64, 128] : List Nat)[1]? = some h1 ∧
      ([32, 64, 64, 128] : List Nat)[2]? = some h2 ∧
      sampleConvEncoder.main =
        [ConvLayer.conv c0 h0 1 1, ConvLayer.act,
         ConvLayer.conv h0 h1 1 1, ConvLayer.act,
         ConvLayer.conv h1 h2 1 1, ConvLayer.act,
         ConvLayer.flatten] ∧
      ([32, 64, 64, 128] : List Nat).getLast? =
        some sampleConvEncoder.mid.2 ∧
      getFlattenSize sampleConvEncoder.main [4, 5, 5] =
        some sampleConvEncoder.mid.1 ∧
      ∀ s, sampleConvEncoder.forwardShape s =
        (seqOutShape sampleConvEncoder.main s).bind
          (linearShape sampleConvEncoder.mid.1 sampleConvEncoder.mid.2) :=
  c7_conv_stack_structure [4, 5, 5] [32, 64, 64, 128]
    sampleConvEncoder rfl

/-- C1 (code bug): `ConvEncoder((4, 5, 5), [32, 64, 64, 128, 128])` has
five configured hidden sizes, so per the claim the stack should contain
one residual block of width 128 between the convolutions and the final
linear layer.  Construction succeeds (the widths at positions `3:-1`
are all equal) but, because the constructor overwrites
`self.hidden_size_list` with `[4, 4, 4]` before the residual loop runs
over it, the built stack has zero residual blocks: its seven layers are
the three conv+activation pairs and the flatten. -/
theorem c1_resblocks_never_built :
    (ConvEncoder.init [4, 5, 5] [32, 64, 64, 128, 128]).map
        (fun e =>
          (e.hidden_size_list, e.main.countP ConvLayer.isResblock,
            e.main.length)) =
      Except.ok ([4, 4, 4], 0, 7) := rfl

/-- C2: the encoder class is selected by the rank of the squeezed
observation shape.  An int (which a rank-1 shape squeezes to) yields the
fully-connected encoder and construction succeeds; a rank-3 shape yields
the convolutional encoder; any other rank makes `VAC.__init__` raise the
unsupported-observation-shape `RuntimeError` at the selection stage, so
the returned value is the error for every choice of the remaining
arguments — no encoder or head has been built. -/
theorem c2_encoder_selected_by_rank :
    (∀ cfg n, squeeze cfg.obs_shape = PyVal.int n →
      ∃ arch, VAC.init cfg = Except.ok arch ∧
        arch.encoder_cls = EncoderCls.fc) ∧
    (∀ cfg l arch, squeeze cfg.obs_shape = PyVal.seq l → l.length = 3 →
      VAC.init cfg = Except.ok arch →
      arch.encoder_cls = EncoderCls.conv) ∧
    (∀ cfg l, squeeze cfg.obs_shape = PyVal.seq l → l.length ≠ 1 →
      l.length ≠ 3 →
      VAC.init cfg = Except.error (unsupportedObsMsg l)) := by
  refine ⟨vac_init_int_obs_fc, ?_, vac_init_bad_rank⟩
  intro cfg l arch hobs hlen h
  obtain ⟨cls, encs, hc, he, harch⟩ := vac_init_ok_struct cfg arch h
  subst harch
  rw [hobs] at hc
  simp only [selectEncoderCls, hlen] at hc
  norm_num at hc
  simp [hc.symm]

/-- Witness for C2: `VAC(7, 5)` selects the fully-connected encoder and
constructs; `VAC((3, 4), 5)` (rank 2) fails with the
unsupported-observation-shape error. -/
theorem c2_encoder_selected_by_rank_witness :
    (∃ arch,
      VAC.init (VACConfig.default (PyVal.int 7) (PyVal.int 5)) =
        Except.ok arch ∧
      arch.encoder_cls = EncoderCls.fc) ∧
    VAC.init (VACConfig.default (PyVal.seq [3, 4]) (PyVal.int 5)) =
      Except.error (unsupportedObsMsg [3, 4]) :=
  ⟨c2_encoder_selected_by_rank.1 _ 7 rfl,
   c2_encoder_selected_by_rank.2.2 _ [3, 4] rfl (by decide) (by decide)⟩


/-- Every layer preserves the batch dimension (the head of the shape). -/
theorem convLayer_outShape_head (l : ConvLayer) (s t : Shape)
    (h : l.outShape s = some t) : t.head? = s.head? := by
  unfold ConvLayer.outShape at h
  split at h
  all_goals try split at h
  all_goals
    first
      | (injection h with hh; subst hh; rfl)
      | simp at h

/-- A sequential stack of layers preserves the batch dimension. -/
theorem seqOutShape_head (ls : List ConvLayer) (s t : Shape)
    (h : seqOutShape ls s = some t) : t.head? = s.head? := by
  induction ls generalizing s with
  | nil =>
      simp only [seqOutShape, Option.some.injEq] at h
      rw [h]
  | cons l ls ih =>
      simp only [seqOutShape] at h
      cases ho : l.outShape s with
      | none => rw [ho] at h; simp at h
      | some u =>
          rw [ho] at h
          simp only [Option.some_bind] at h
          exact (ih u h).trans (convLayer_outShape_head l s u ho)

/-- An encoder producing a rank-2 embedding `[b, n]` read its input as a
batch of size `b`: the input shape's first dimension is `b`. -/
theorem encoderI_outShape_batch (enc : EncoderI) (s : Shape) (b n : Nat)
    (h : enc.outShape s = some [b, n]) : s.head? = some b := by
  cases enc with
  | fc obs hsl =>
      simp only [EncoderI.outShape] at h
      rcases s with _ | ⟨b0, _ | ⟨m, _ | ⟨x, rest⟩⟩⟩ <;>
        simp only [fcEncoderOutShape] at h
      · exact absurd h (by simp)
      · exact absurd h (by simp)
      · split at h
        · cases hl : hsl.getLast? with
          | none => rw [hl] at h; exact absurd h (by simp)
          | some hh =>
              rw [hl] at h
              simp only [Option.map_some', Option.some.injEq,
                List.cons.injEq, and_true] at h
              simp [h.1]
        · exact absurd h (by simp)
      · exact absurd h (by simp)
  | conv e =>
      simp only [EncoderI.outShape, ConvEncoder.forwardShape] at h
      cases hm : seqOutShape e.main s with
      | none => rw [hm] at h; simp at h
      | some t =>
          rw [hm] at h
          simp only [Option.some_bind] at h
          cases hl : t.getLast? with
          | none => simp [linearShape, hl] at h
          | some m =>
              simp only [linearShape, hl] at h
              split at h
              · injection h with hinj
                have h2 : t.dropLast ++ [e.mid.2] = [b] ++ [n] := hinj
                have hsplit := List.append_inj' h2 rfl
                have ht : t = [b, m] := by
                  have hd := List.dropLast_append_getLast? m hl
                  rw [hsplit.1] at hd
                  exact hd.symm
                have hb := seqOutShape_head e.main s t hm
                rw [ht] at hb
                simpa using hb.symm
              · simp at h

/-- The actor head built by `VAC.__init__` for a squeezed action shape
produces action parameters whose last dimension equals the configured
action size(s). -/
theorem buildActorHead_lastDims (cfg : VACConfig) (act : PyVal)
    (emb : Shape) (ls : LogitShape)
    (h : (buildActorHead cfg act).logitShape emb = some ls) :
    lastDimsMatch act ls = true := by
  unfold buildActorHead at h
  by_cases hc : cfg.continuous
  · rw [if_pos hc] at h
    simp only [ActorHeadI.logitShape] at h
    rcases emb with _ | ⟨b0, _ | ⟨m, _ | ⟨x, rest⟩⟩⟩ <;>
      simp only [reparamLogitShape] at h
    · simp at h
    · simp at h
    · cases act with
      | int an =>
          simp only at h
          split at h
          · injection h with hh
            subst hh
            simp [lastDimsMatch]
          · simp at h
      | seq l => simp at h
    · simp at h
  · rw [if_neg hc] at h
    cases act with
    | int an =>
        simp only [ActorHeadI.logitShape] at h
        rcases emb with _ | ⟨b0, _ | ⟨m, _ | ⟨x, rest⟩⟩⟩ <;>
          simp only [discreteLogitShape] at h
        · simp at h
        · simp at h
        · split at h
          · injection h with hh
            subst hh
            simp [lastDimsMatch]
          · simp at h
        · simp at h
    | seq l =>
        simp only [ActorHeadI.logitShape] at h
        rcases emb with _ | ⟨b0, _ | ⟨m, _ | ⟨x, rest⟩⟩⟩ <;>
          simp only [multiLogitShape] at h
        · simp at h
        · simp at h
        · split at h
          · injection h with hh
            subst hh
            have hmap : (l.map (fun a => ([b0, a] : Shape))).map
                (fun s => s.getLast?) = l.map some := by
              rw [List.map_map]
              apply List.map_congr_left
              intro a _
              simp [Function.comp, List.getLast?_cons_cons]
            simp [lastDimsMatch, hmap]
          · simp at h
        · simp at h

/-- Unfolding `>>=` on a `some` value. -/
theorem optionBindSome {α β : Type} (a : α) (f : α → Option β) :
    (some a : Option α) >>= f = f a := rfl

/-- Unfolding `>>=` on a `none` value. -/
theorem optionBindNone {α β : Type} (f : α → Option β) :
    (none : Option α) >>= f = none := rfl

/-- The concrete architecture built by `VAC(64, 64)` with the default
constructor arguments. -/
def arch64 : VACArch :=
  { obs_shape := PyVal.int 64, action_shape := PyVal.int 64,
    encoder_cls := EncoderCls.fc, share_encoder := true,
    continuous := false, multi_head := false,
    encoder := some (EncoderI.fc 64 [128, 128, 64]),
    actor_encoder := none, critic_encoder := none,
    actor_head := ActorHeadI.discrete 64 64 2,
    critic_head := (64, 1) }

/-- C4: for every valid `VAC` construction, whenever `compute_actor`
produces an action-parameter output its tensors have last dimension
equal to the configured action size(s); whenever `compute_critic`
produces a `value` it is the 1-D tensor `[B]` where `B` is the input
batch size; and in the concrete scenario `VAC(64, 64)` on a batch of 4
flat vectors of length 64, `compute_actor_critic` yields a logit of
shape `(4, 64)` and a value of shape `(4,)`. -/
theorem c4_output_shapes :
    (∀ cfg arch s ls, VAC.init cfg = Except.ok arch →
      arch.computeActorShape s = some ls →
      lastDimsMatch arch.action_shape ls = true) ∧
    (∀ cfg arch s v, VAC.init cfg = Except.ok arch →
      arch.computeCriticShape s = some v →
      ∃ b, s.head? = some b ∧ v = [b]) ∧
    ((VAC.init
          (VACConfig.default (PyVal.int 64) (PyVal.int 64))).toOption.bind
        (fun a => a.computeActorCriticShape [4, 64]) =
      some (LogitShape.single [4, 64], [4])) := by
  refine ⟨?_, ?_, rfl⟩
  · intro cfg arch s ls h hshape
    obtain ⟨cls, encs, hc, he, harch⟩ := vac_init_ok_struct cfg arch h
    subst harch
    simp only [VACArch.computeActorShape, VACArch.actorEnc] at hshape
    cases henc : (if cfg.share_encoder then encs.1 else encs.2.1) with
    | none => rw [henc, optionBindNone] at hshape; simp at hshape
    | some enc =>
        rw [henc, optionBindSome] at hshape
        cases hemb : enc.outShape s with
        | none => rw [hemb, optionBindNone] at hshape; simp at hshape
        | some emb =>
            rw [hemb, optionBindSome] at hshape
            exact buildActorHead_lastDims cfg _ emb ls hshape
  · intro cfg arch s v h hshape
    obtain ⟨cls, encs, hc, he, harch⟩ := vac_init_ok_struct cfg arch h
    subst harch
    simp only [VACArch.computeCriticShape, VACArch.criticEnc] at hshape
    cases henc : (if cfg.share_encoder then encs.1 else encs.2.2) with
    | none => rw [henc, optionBindNone] at hshape; simp at hshape
    | some enc =>
        rw [henc, optionBindSome] at hshape
        cases hemb : enc.outShape s with
        | none => rw [hemb, optionBindNone] at hshape; simp at hshape
        | some emb =>
            rw [hemb, optionBindSome] at hshape
            rcases emb with _ | ⟨b0, _ | ⟨m, _ | ⟨x, rest⟩⟩⟩ <;>
              simp only [regressionPredShape] at hshape
            · simp at hshape
            · simp at hshape
            · split at hshape
              · injection hshape with hv
                exact ⟨b0, encoderI_outShape_batch enc s b0 m hemb,
                  hv.symm⟩
              · simp at hshape
            · simp at hshape

/-- Witness for C4: the `VAC(64, 64)` scenario with a `(4, 64)` batch,
instantiating both universally quantified parts. -/
theorem c4_output_shapes_witness :
    lastDimsMatch arch64.action_shape (LogitShape.single [4, 64]) = true ∧
    (∃ b, ([4, 64] : Shape).head? = some b ∧ ([4] : Shape) = [b]) :=
  ⟨c4_output_shapes.1 (VACConfig.default (PyVal.int 64) (PyVal.int 64))
      arch64 [4, 64] (LogitShape.single [4, 64]) rfl rfl,
   c4_output_shapes.2.1 (VACConfig.default (PyVal.int 64) (PyVal.int 64))
      arch64 [4, 64] [4] rfl rfl⟩

/-- A concrete discrete shared-encoder `VAC` instance over `Nat`
tensors. -/
def trivialVAC : VAC Nat :=
  { share_encoder := true, continuous := false,
    encoder := fun x => x + 1,
    actor_encoder := fun x => x,
    critic_encoder := fun x => x,
    actor_head := fun t => [("logit", Val.tensor (t + 2))],
    critic_head := fun t => [("pred", Val.tensor (t + 3))] }

/-- C5: for every mode string outside the three supported ones,
`forward` fails with the `AssertionError` whose message contains the
offending mode and the allowed mode list, and the result does not
depend on the input or on any encoder or head (the right-hand side
mentions neither `m` nor `x`): no encoder or head computation is
performed. -/
theorem c5_forward_rejects_unknown_mode {T : Type} (m : VAC T) (x : T)
    (mode : String) (h : mode ∉ VAC.modeNames) :
    m.forward x mode = Except.error (unsupportedModeMsg mode) ∧
    ∃ pre sep,
      unsupportedModeMsg mode =
        pre ++ mode ++ sep ++ String.intercalate ", " VAC.modeNames ++
          "]" := by
  refine ⟨?_, "not support forward mode: ", "/[", rfl⟩
  unfold VAC.forward
  rw [if_neg h]

/-- Witness for C5 at the unsupported mode string `compute_q`. -/
theorem c5_forward_rejects_unknown_mode_witness :
    trivialVAC.forward 0 "compute_q" =
      Except.error (unsupportedModeMsg "compute_q") ∧
    ∃ pre sep,
      unsupportedModeMsg "compute_q" =
        pre ++ "compute_q" ++ sep ++
          String.intercalate ", " VAC.modeNames ++ "]" :=
  c5_forward_rejects_unknown_mode trivialVAC 0 "compute_q" (by decide)

/-- C8: for each of the three supported mode strings, `forward`
returns exactly the result of the direct call of the method of that
name on the same input. -/
theorem c8_forward_dispatch {T : Type} (m : VAC T) (x : T) :
    m.forward x "compute_actor" = Except.ok (m.compute_actor x) ∧
    m.forward x "compute_critic" = Except.ok (m.compute_critic x) ∧
    m.forward x "compute_actor_critic" =
      Except.ok (m.compute_actor_critic x) :=
  ⟨rfl, rfl, rfl⟩

/-- C9: none of the three forward modes mutates the instance: a
stateful call returns the instance unchanged, and two sequential calls
of the same mode on the same input return equal results (the methods
assign no attribute of `self`, and the encoders and heads are pure
functions of the input for fixed learned parameters). -/
theorem c9_forward_modes_stateless {T : Type} (m : VAC T) (x : T)
    (mode : String) :
    (m.call x mode).1 = m ∧
    (m.callTwice x mode).1 = m ∧
    (m.callTwice x mode).2.1 = (m.callTwice x mode).2.2 :=
  ⟨rfl, rfl, rfl⟩

/-- Follows the spec's words for claim C3: run the shared encoder once,
feed the same embedding to the actor head and the critic head
separately, and package the `logit` and `value` results as
`compute_actor_critic` does. -/
def sharedEmbActorCritic {T : Type} (m : VAC T) (x : T) :
    Option (PyDict T) :=
  let emb := m.encoder x
  let actor_output := m.actor_head emb
  let value := m.critic_head emb
  let logit :=
    if m.continuous then
      match dlookup actor_output "mu", dlookup actor_output "sigma" with
      | some mu, some sigma => some (Val.list [mu, sigma])
      | _, _ => none
    else
      dlookup actor_output "logit"
  match logit, dlookup value "pred" with
  | some l, some p => some [("logit", l), ("value", p)]
  | _, _ => none

/-- C3: with a shared encoder, `compute_actor_critic` equals evaluating
the encoder once and feeding the same embedding to both heads, and its
`logit` and `value` entries equal (as values) the `logit` of
`compute_actor` and the `value` of `compute_critic` on the same
input. -/
theorem c3_shared_encoder_equivalence {T : Type} (m : VAC T) (x : T)
    (h : m.share_encoder = true) :
    m.compute_actor_critic x = sharedEmbActorCritic m x ∧
    m.compute_actor_critic x =
      (match (m.compute_actor x).bind (fun d => dlookup d "logit"),
             (m.compute_critic x).bind (fun d => dlookup d "value") with
       | some l, some v => some [("logit", l), ("value", v)]
       | _, _ => none) := by
  constructor
  · simp only [VAC.compute_actor_critic, sharedEmbActorCritic, h, if_true]
  · simp only [VAC.compute_actor_critic, VAC.compute_actor,
      VAC.compute_critic, h, if_true]
    cases hcont : m.continuous with
    | true =>
        simp only [if_true]
        rcases dlookup (m.actor_head (m.encoder x)) "mu" with _ | mu <;>
          rcases dlookup (m.actor_head (m.encoder x)) "sigma" with _ | sg <;>
            rcases dlookup (m.critic_head (m.encoder x)) "pred" with _ | p <;>
              rfl
    | false =>
        simp only [Bool.false_eq_true, if_false, Option.some_bind]
        rcases dlookup (m.critic_head (m.encoder x)) "pred" with _ | p <;>
          rcases dlookup (m.actor_head (m.encoder x)) "logit" with _ | lg <;>
            rfl

/-- Witness for C3: the concrete shared-encoder instance at input 5. -/
theorem c3_shared_encoder_equivalence_witness :
    trivialVAC.compute_actor_critic 5 =
      sharedEmbActorCritic trivialVAC 5 ∧
    trivialVAC.compute_actor_critic 5 =
      (match (trivialVAC.compute_actor 5).bind (fun d => dlookup d "logit"),
             (trivialVAC.compute_critic 5).bind
               (fun d => dlookup d "value") with
       | some l, some v => some [("logit", l), ("value", v)]
       | _, _ => none) :=
  c3_shared_encoder_equivalence trivialVAC 5 rfl

/-- C6: `compute_actor` runs the actor-side encoder (the shared one
when `share_encoder`) and then the actor head.  When continuous it
repackages the head's `(mu, sigma)` pair as a two-element list under
the single key `logit`; when discrete it returns the head's output dict
unchanged — whose `logit` is one tensor for an int action shape
(`DiscreteHead`) and one tensor per action sub-dimension for a sequence
action shape (`MultiHead`), as recorded by the head the constructor
builds and by its output shape. -/
theorem c6_compute_actor_output_forms :
    (∀ (T : Type) (m : VAC T) (x : T), m.continuous = true →
      m.compute_actor x =
        (match
            dlookup (m.actor_head (if m.share_encoder then m.encoder x
              else m.actor_encoder x)) "mu",
            dlookup (m.actor_head (if m.share_encoder then m.encoder x
              else m.actor_encoder x)) "sigma" with
         | some mu, some sigma => some [("logit", Val.list [mu, sigma])]
         | _, _ => none)) ∧
    (∀ (T : Type) (m : VAC T) (x : T), m.continuous = false →
      m.compute_actor x =
        some (m.actor_head (if m.share_encoder then m.encoder x
          else m.actor_encoder x))) ∧
    (∀ cfg arch, VAC.init cfg = Except.ok arch →
      (cfg.continuous = true →
        arch.actor_head =
          ActorHeadI.reparam cfg.actor_head_hidden_size
            (squeeze cfg.action_shape) cfg.actor_head_layer_num) ∧
      (∀ n, cfg.continuous = false →
        squeeze cfg.action_shape = PyVal.int n →
        arch.actor_head =
          ActorHeadI.discrete cfg.actor_head_hidden_size n
            cfg.actor_head_layer_num) ∧
      (∀ l, cfg.continuous = false →
        squeeze cfg.action_shape = PyVal.seq l →
        arch.actor_head =
          ActorHeadI.multi cfg.actor_head_hidden_size l
            cfg.actor_head_layer_num ∧
        arch.multi_head = true ∧
        (∀ s ss, arch.computeActorShape s = some (LogitShape.multi ss) →
          ss.length = l.length))) := by
  refine ⟨?_, ?_, ?_⟩
  · intro T m x hcont
    simp only [VAC.compute_actor, hcont, if_true]
  · intro T m x hcont
    simp only [VAC.compute_actor, hcont, Bool.false_eq_true, if_false]
  · intro cfg arch h
    obtain ⟨cls, encs, hc, he, harch⟩ := vac_init_ok_struct cfg arch h
    subst harch
    refine ⟨?_, ?_, ?_⟩
    · intro hcont
      simp only [buildActorHead, hcont, if_true]
    · intro n hcont hact
      simp only [buildActorHead, hcont, Bool.false_eq_true, if_false, hact]
    · intro l hcont hact
      refine ⟨?_, ?_, ?_⟩
      · simp only [buildActorHead, hcont, Bool.false_eq_true, if_false,
          hact]
      · simp only [multiHeadFlag, hcont, Bool.false_eq_true, if_false,
          hact]
      · intro s ss hshape
        simp only [VACArch.computeActorShape, VACArch.actorEnc] at hshape
        cases henc : (if cfg.share_encoder then encs.1 else encs.2.1) with
        | none => rw [henc, optionBindNone] at hshape; simp at hshape
        | some enc =>
            rw [henc, optionBindSome] at hshape
            cases hemb : enc.outShape s with
            | none => rw [hemb, optionBindNone] at hshape; simp at hshape
            | some emb =>
                rw [hemb, optionBindSome] at hshape
                simp only [buildActorHead, hcont, Bool.false_eq_true,
                  if_false, hact, ActorHeadI.logitShape] at hshape
                rcases emb with _ | ⟨b0, _ | ⟨m, _ | ⟨y, rest⟩⟩⟩ <;>
                  simp only [multiLogitShape] at hshape
                · simp at hshape
                · simp at hshape
                · split at hshape
                  · injection hshape with hh
                    injection hh with hh2
                    rw [← hh2]
                    simp
                  · simp at hshape
                · simp at hshape

/-- A concrete continuous shared-encoder `VAC` instance over `Nat`
tensors. -/
def contVAC : VAC Nat :=
  { share_encoder := true, continuous := true,
    encoder := fun x => x * 2,
    actor_encoder := fun x => x,
    critic_encoder := fun x => x,
    actor_head := fun t =>
      [("mu", Val.tensor t), ("sigma", Val.tensor (t + 1))],
    critic_head := fun t => [("pred", Val.tensor t)] }

/-- The concrete architecture built by
`VAC(10, (3, 4))` with otherwise-default constructor arguments: a
tuple action shape, hence a `MultiHead`. -/
def archMulti : VACArch :=
  { obs_shape := PyVal.int 10, action_shape := PyVal.seq [3, 4],
    encoder_cls := EncoderCls.fc, share_encoder := true,
    continuous := false, multi_head := true,
    encoder := some (EncoderI.fc 10 [128, 128, 64]),
    actor_encoder := none, critic_encoder := none,
    actor_head := ActorHeadI.multi 64 [3, 4] 2,
    critic_head := (64, 1) }

/-- Witness for C6: the continuous repackaging at `contVAC`, the
discrete pass-through at `trivialVAC`, and the head kinds of the
concrete `VAC(64, 64)` and `VAC(10, (3, 4))` constructions. -/
theorem c6_compute_actor_output_forms_witness :
    (contVAC.compute_actor 3 =
      (match
          dlookup (contVAC.actor_head (if contVAC.share_encoder then
            contVAC.encoder 3 else contVAC.actor_encoder 3)) "mu",
          dlookup (contVAC.actor_head (if contVAC.share_encoder then
            contVAC.encoder 3 else contVAC.actor_encoder 3)) "sigma" with
       | some mu, some sigma => some [("logit", Val.list [mu, sigma])]
       | _, _ => none)) ∧
    (trivialVAC.compute_actor 3 =
      some (trivialVAC.actor_head (if trivialVAC.share_encoder then
        trivialVAC.encoder 3 else trivialVAC.actor_encoder 3))) ∧
    arch64.actor_head = ActorHeadI.discrete 64 64 2 ∧
    archMulti.actor_head = ActorHeadI.multi 64 [3, 4] 2 ∧
    archMulti.multi_head = true :=
  ⟨c6_compute_actor_output_forms.1 Nat contVAC 3 rfl,
   c6_compute_actor_output_forms.2.1 Nat trivialVAC 3 rfl,
   (c6_compute_actor_output_forms.2.2
      (VACConfig.default (PyVal.int 64) (PyVal.int 64)) arch64
      rfl).2.1 64 rfl rfl,
   ((c6_compute_actor_output_forms.2.2
      (VACConfig.default (PyVal.int 10) (PyVal.seq [3, 4])) archMulti
      rfl).2.2 [3, 4] rfl rfl).1,
   ((c6_compute_actor_output_forms.2.2
      (VACConfig.default (PyVal.int 10) (PyVal.seq [3, 4])) archMulti
      rfl).2.2 [3, 4] rfl rfl).2.1⟩
